import Mathlib

/-!
Verification of the NEPA webhook delivery subsystem against its specification.

The repository ships the webhook subsystem's documentation (PULL_REQUEST.md,
quick-start guide, Prisma schema) and the assembled Express application, but
the service sources themselves (WebhookService.ts, WebhookController.ts,
WebhookEventEmitter.ts, webhookSecurity.ts) are not present. Definitions for
those parts are therefore modelled from the specification text, as their doc
comments state; the Express route table and the Prisma schema defaults are
embedded from the sources that are present.
-/

namespace Nepa

/-! ## Retry policy calculator (spec 4.2) -/

/-- Retry strategies recognized by the delivery engine (`retryPolicy` column of
the `Webhook` model: `EXPONENTIAL | LINEAR | FIXED`). -/
inductive RetryStrategy
  | FIXED
  | LINEAR
  | EXPONENTIAL
  deriving DecidableEq

/-- Modelled from the spec: `WebhookService.calculateRetryDelay` is absent from
the sources; spec 4.2 defines the pure function `delay(attemptNumber, strategy,
baseDelaySeconds)`: FIXED gives `baseDelaySeconds` for every attempt, LINEAR
gives `baseDelaySeconds * attemptNumber`, EXPONENTIAL gives
`baseDelaySeconds * 2^(attemptNumber-1)`. -/
def calculateRetryDelay (attemptNumber : Nat) (strategy : RetryStrategy)
    (baseDelaySeconds : Nat) : Nat :=
  match strategy with
  | .FIXED => baseDelaySeconds
  | .LINEAR => baseDelaySeconds * attemptNumber
  | .EXPONENTIAL => baseDelaySeconds * 2 ^ (attemptNumber - 1)

/-! ## Data model (Prisma schema embedded in src/PULL_REQUEST.md) -/

/-- Status of a `WebhookEvent` row: `PENDING | DELIVERED | FAILED`. -/
inductive EventStatus
  | PENDING
  | DELIVERED
  | FAILED
  deriving DecidableEq

/-- Action recorded by a `WebhookLog` row:
`CREATED | UPDATED | DELETED | TRIGGERED | FAILED`. -/
inductive LogAction
  | CREATED
  | UPDATED
  | DELETED
  | TRIGGERED
  | FAILED
  deriving DecidableEq

/-- Outcome recorded by a `WebhookLog` row: `SUCCESS | ERROR`. -/
inductive LogStatus
  | SUCCESS
  | ERROR
  deriving DecidableEq

/-- The `Webhook` model of the Prisma schema (an Endpoint in the spec's data
model): destination URL, subscribed event types, signing secret, active flag,
retry policy and limits, custom headers. Identifiers and timestamps are
naturals; `headers Json?` is modelled as a name-value list (empty for null). -/
structure Webhook where
  id : Nat
  userId : Nat
  url : String
  events : List String
  secret : String
  isActive : Bool
  retryPolicy : RetryStrategy
  maxRetries : Nat
  retryDelaySeconds : Nat
  timeoutSeconds : Nat
  headers : List (String × String)
  createdAt : Nat
  deriving DecidableEq

/-- The `WebhookEvent` model (an Event in the spec's data model): one delivery
unit with status, attempts counter and retry bookkeeping. The JSON payload is
modelled as its canonical serialized bytes. -/
structure WebhookEvent where
  id : Nat
  webhookId : Nat
  eventType : String
  payload : List Nat
  status : EventStatus
  attempts : Nat
  lastAttempt : Option Nat
  nextRetry : Option Nat
  createdAt : Nat
  deriving DecidableEq

/-- The `WebhookAttempt` model: one HTTP delivery try, with nullable status
code (absent on network or timeout failure), latency, body or error. -/
structure WebhookAttempt where
  id : Nat
  eventId : Nat
  statusCode : Option Nat
  responseTime : Option Nat
  response : Option String
  error : Option String
  createdAt : Nat
  deriving DecidableEq

/-- The `WebhookLog` model: an append-only audit row for a webhook. -/
structure WebhookLog where
  id : Nat
  webhookId : Nat
  action : LogAction
  status : LogStatus
  createdAt : Nat
  deriving DecidableEq

/-! ## Delivery engine (spec 4.5) -/

/-- What one HTTP delivery try can come back with: an HTTP response (status
code, latency, body), a network error, or an exceeded timeout. -/
inductive DeliveryOutcome
  | response (statusCode : Nat) (latencyMs : Nat) (body : String)
  | networkError (message : String)
  | timedOut
  deriving DecidableEq

/-- Success is any HTTP response status in the 200 to 299 range (spec 4.5
step 4). -/
def isSuccessStatus (code : Nat) : Bool :=
  decide (200 ≤ code ∧ code ≤ 299)

/-- Whether the outcome of a delivery try counts as a success: only a 2xx HTTP
response does; a non-2xx response, a network error, or an exceeded timeout is a
delivery failure for that attempt (spec 4.5 step 4). -/
def outcomeSuccess : DeliveryOutcome → Bool
  | .response code _ _ => isSuccessStatus code
  | .networkError _ => false
  | .timedOut => false

/-- The `WebhookAttempt` row recorded for an outcome (spec 4.5 step 3): status
code, latency and body for an HTTP response; the error string for a network
error or a timeout, with the status code absent. -/
def recordAttempt (attemptId : Nat) (ev : WebhookEvent) (now : Nat) :
    DeliveryOutcome → WebhookAttempt
  | .response code lat body =>
      ⟨attemptId, ev.id, some code, some lat, some body, none, now⟩
  | .networkError msg =>
      ⟨attemptId, ev.id, none, none, none, some msg, now⟩
  | .timedOut =>
      ⟨attemptId, ev.id, none, none, none, some "Request timed out", now⟩

/-- Result of a single delivery step: the updated event, the attempt row
recorded, and the delay scheduled before the next automatic retry when one
was scheduled. -/
structure StepResult where
  event : WebhookEvent
  attempt : WebhookAttempt
  scheduledDelay : Option Nat
  deriving DecidableEq

/-- Modelled from the spec: `WebhookService.attemptWebhookDelivery` is absent
from the sources; spec 4.5 steps 3 to 6 define one delivery step. An attempt
row is always recorded. On a 2xx outcome the event becomes DELIVERED. On a
failure the attempts counter is incremented; while it is still below
`maxRetries` the event stays PENDING with `nextRetry` set `delay(attempts,
strategy, baseDelaySeconds)` seconds ahead, otherwise the event becomes
FAILED. -/
def attemptWebhookDelivery (wh : Webhook) (ev : WebhookEvent)
    (outcome : DeliveryOutcome) (now attemptId : Nat) : StepResult :=
  let att := recordAttempt attemptId ev now outcome
  if outcomeSuccess outcome then
    { event := { ev with status := .DELIVERED, lastAttempt := some now, nextRetry := none },
      attempt := att,
      scheduledDelay := none }
  else
    let attempts' := ev.attempts + 1
    if attempts' < wh.maxRetries then
      let d := calculateRetryDelay attempts' wh.retryPolicy wh.retryDelaySeconds
      { event := { ev with attempts := attempts', status := .PENDING,
                           lastAttempt := some now, nextRetry := some (now + d) },
        attempt := att,
        scheduledDelay := some d }
    else
      { event := { ev with attempts := attempts', status := .FAILED,
                           lastAttempt := some now, nextRetry := none },
        attempt := att,
        scheduledDelay := none }

/-- Result of driving the automatic delivery loop: the final event, the
attempt rows recorded in order, and the retry delays scheduled in order. -/
structure RunResult where
  event : WebhookEvent
  attempts : List WebhookAttempt
  delays : List Nat
  deriving DecidableEq

/-- Modelled from the spec: the automatic delivery loop (delivery plus the
periodic retry scheduler of spec 4.5 step 6 and section 6). Each listed
outcome is consumed by one delivery step as long as the event is still
PENDING; a terminal event stops the loop. The clock advances to the scheduled
retry time between steps and attempt row identifiers are consecutive. -/
def deliveryRun (wh : Webhook) :
    WebhookEvent → List DeliveryOutcome → Nat → Nat → RunResult
  | ev, [], _, _ => ⟨ev, [], []⟩
  | ev, o :: rest, now, attemptId =>
    if ev.status = EventStatus.PENDING then
      let r := attemptWebhookDelivery wh ev o now attemptId
      let next := match r.scheduledDelay with
        | some d => now + d
        | none => now
      let res := deliveryRun wh r.event rest next (attemptId + 1)
      ⟨res.event, r.attempt :: res.attempts, r.scheduledDelay.toList ++ res.delays⟩
    else ⟨ev, [], []⟩

/-- Modelled from the spec: the manual retry operation (spec 4.5 step 7). It
resets nothing and performs exactly one additional delivery step against the
event regardless of its current attempt count or state, appending one new
attempt row to the given attempt history and updating the event per the
outcome. -/
def retryWebhookEvent (wh : Webhook) (ev : WebhookEvent)
    (outcome : DeliveryOutcome) (now attemptId : Nat)
    (priorAttempts : List WebhookAttempt) :
    WebhookEvent × List WebhookAttempt :=
  let r := attemptWebhookDelivery wh ev outcome now attemptId
  (r.event, priorAttempts ++ [r.attempt])

/-! ## Webhook registry (spec 4.4) -/

/-- Error taxonomy of the registry (spec section 7): bad input, missing
endpoint, or an ownership violation. -/
inductive RegistryError
  | ValidationError (message : String)
  | NotFoundError
  | ForbiddenError
  deriving DecidableEq

/-- The persistence store: the four webhook tables created by the Prisma
schema (`Webhook`, `WebhookEvent`, `WebhookAttempt`, `WebhookLog`). -/
structure Db where
  webhooks : List Webhook
  events : List WebhookEvent
  attempts : List WebhookAttempt
  logs : List WebhookLog
  deriving DecidableEq

/-- Whether `s` starts with the prefix `pre`, as a character-list prefix
test (the ASCII paths and URL schemes compared here make it agree with the
byte-level test of the source's `startsWith`). -/
def strStartsWith (s pre : String) : Bool := pre.data.isPrefixOf s.data

/-- The ten recognized event-type names (fixed, closed set). -/
def validEventTypes : List String :=
  ["payment.success", "payment.failed", "bill.created", "bill.paid",
   "bill.overdue", "bill.updated", "user.created", "user.updated",
   "document.uploaded", "report.generated"]

/-- Options accepted by webhook registration; every policy option may be
omitted, in which case the schema default applies. -/
structure RegisterInput where
  url : String
  events : List String
  retryPolicy : Option RetryStrategy := none
  maxRetries : Option Nat := none
  retryDelaySeconds : Option Nat := none
  timeoutSeconds : Option Nat := none
  headers : Option (List (String × String)) := none
  deriving DecidableEq

/-- Modelled from the spec: `WebhookService.registerWebhook` is absent from
the sources. Registration validates that the URL uses the `https` scheme and
that every subscribed event type is recognized, rejecting bad input with a
`ValidationError` and leaving the store untouched. On success the endpoint is
persisted with the schema defaults (`maxRetries` 5, `retryDelaySeconds` 60,
`timeoutSeconds` 30, empty headers, active, EXPONENTIAL policy) for omitted
options, a CREATED log row is appended, and the stored webhook — carrying the
server-generated secret, supplied here by the caller because randomness is
external to the model — is returned. -/
def registerWebhook (db : Db) (userId : Nat) (input : RegisterInput)
    (freshId : Nat) (freshSecret : String) (now : Nat) :
    Except RegistryError Webhook × Db :=
  if strStartsWith input.url "https://" = false then
    (.error (.ValidationError "Webhook URL must use HTTPS"), db)
  else if input.events.all (fun e => validEventTypes.contains e) = false then
    (.error (.ValidationError "Invalid event types"), db)
  else
    let wh : Webhook :=
      { id := freshId
        userId := userId
        url := input.url
        events := input.events
        secret := freshSecret
        isActive := true
        retryPolicy := input.retryPolicy.getD .EXPONENTIAL
        maxRetries := input.maxRetries.getD 5
        retryDelaySeconds := input.retryDelaySeconds.getD 60
        timeoutSeconds := input.timeoutSeconds.getD 30
        headers := input.headers.getD []
        createdAt := now }
    (.ok wh,
     { db with webhooks := wh :: db.webhooks,
               logs := db.logs ++ [⟨freshId, freshId, .CREATED, .SUCCESS, now⟩] })

/-- Placeholder the registry substitutes for the signing secret on every read
after creation. -/
def redactedSecret : String := "***"

/-- A webhook as returned by any read after creation: the signing secret is
replaced by the redaction placeholder. -/
def redactSecret (wh : Webhook) : Webhook :=
  { wh with secret := redactedSecret }

/-- Modelled from the spec: listing returns the caller's webhooks, most
recently created first (registration prepends), with secrets redacted. -/
def listWebhooks (db : Db) (userId : Nat) : List Webhook :=
  (db.webhooks.filter (fun w => w.userId == userId)).map redactSecret

/-- Modelled from the spec: reading a single webhook enforces ownership and
returns the stored configuration with the secret redacted. -/
def getWebhook (db : Db) (webhookId userId : Nat) :
    Except RegistryError Webhook :=
  match db.webhooks.find? (fun w => w.id == webhookId) with
  | none => .error .NotFoundError
  | some w =>
    if w.userId ≠ userId then .error .ForbiddenError
    else .ok (redactSecret w)

/-- A partial update to a webhook's configuration; the secret is not
patchable. -/
structure WebhookPatch where
  url : Option String := none
  events : Option (List String) := none
  isActive : Option Bool := none
  retryPolicy : Option RetryStrategy := none
  maxRetries : Option Nat := none
  retryDelaySeconds : Option Nat := none
  timeoutSeconds : Option Nat := none
  headers : Option (List (String × String)) := none
  deriving DecidableEq

/-- The configuration resulting from applying a patch; absent fields keep
their stored value and the secret is never touched. -/
def applyPatch (w : Webhook) (p : WebhookPatch) : Webhook :=
  { w with url := p.url.getD w.url
           events := p.events.getD w.events
           isActive := p.isActive.getD w.isActive
           retryPolicy := p.retryPolicy.getD w.retryPolicy
           maxRetries := p.maxRetries.getD w.maxRetries
           retryDelaySeconds := p.retryDelaySeconds.getD w.retryDelaySeconds
           timeoutSeconds := p.timeoutSeconds.getD w.timeoutSeconds
           headers := p.headers.getD w.headers }

/-- Modelled from the spec: updating enforces ownership, re-validates a
patched URL, persists the patched configuration, appends an UPDATED log row,
and returns the updated webhook with the secret redacted. -/
def updateWebhook (db : Db) (webhookId userId : Nat) (p : WebhookPatch)
    (now : Nat) : Except RegistryError Webhook × Db :=
  match db.webhooks.find? (fun w => w.id == webhookId) with
  | none => (.error .NotFoundError, db)
  | some w =>
    if w.userId ≠ userId then (.error .ForbiddenError, db)
    else if strStartsWith (p.url.getD w.url) "https://" = false then
      (.error (.ValidationError "Webhook URL must use HTTPS"), db)
    else
      let w2 := applyPatch w p
      (.ok (redactSecret w2),
       { db with
           webhooks := db.webhooks.map (fun x => if x.id = webhookId then w2 else x),
           logs := db.logs ++ [⟨webhookId, webhookId, .UPDATED, .SUCCESS, now⟩] })

/-- Modelled from the spec and the schema's `onDelete: Cascade` clauses:
deletion enforces ownership and removes the webhook together with its events,
the attempts of those events, and its logs. -/
def deleteWebhook (db : Db) (webhookId userId : Nat) :
    Except RegistryError Unit × Db :=
  match db.webhooks.find? (fun w => w.id == webhookId) with
  | none => (.error .NotFoundError, db)
  | some w =>
    if w.userId ≠ userId then (.error .ForbiddenError, db)
    else
      let doomed := db.events.filter (fun e => e.webhookId == webhookId)
      (.ok (),
       { webhooks := db.webhooks.filter (fun x => x.id ≠ webhookId)
         events := db.events.filter (fun e => e.webhookId ≠ webhookId)
         attempts := db.attempts.filter (fun a => doomed.all (fun e => e.id ≠ a.eventId))
         logs := db.logs.filter (fun l => l.webhookId ≠ webhookId) })

/-! ## Signature codec (spec 4.1): HMAC-SHA256 over payload bytes

Modelled from the spec: the signing helpers of `WebhookService.ts` and
`middleware/webhookSecurity.ts` are absent from the sources; spec 4.1 fixes
the algorithm as HMAC-SHA256 over the exact payload bytes, emitted as a hex
digest. SHA-256 is implemented here in full (FIPS 180-4), over byte lists
with explicit reduction mod `2 ^ 32` wherever 32-bit words overflow. -/

/-- The 32-bit word modulus. -/
def M32 : Nat := 4294967296

/-- Right-rotation of a 32-bit word by `n` places. -/
def rotr (n x : Nat) : Nat :=
  ((x >>> n) ||| ((x <<< (32 - n)) % M32)) % M32

/-- Bitwise complement of a 32-bit word. -/
def not32 (x : Nat) : Nat := x ^^^ (M32 - 1)

/-- The SHA-256 choice function. -/
def shaCh (x y z : Nat) : Nat := (x &&& y) ^^^ (not32 x &&& z)

/-- The SHA-256 majority function. -/
def shaMaj (x y z : Nat) : Nat := (x &&& y) ^^^ (x &&& z) ^^^ (y &&& z)

/-- The SHA-256 big sigma-0 function. -/
def bigSigma0 (x : Nat) : Nat := rotr 2 x ^^^ rotr 13 x ^^^ rotr 22 x

/-- The SHA-256 big sigma-1 function. -/
def bigSigma1 (x : Nat) : Nat := rotr 6 x ^^^ rotr 11 x ^^^ rotr 25 x

/-- The SHA-256 small sigma-0 function. -/
def smallSigma0 (x : Nat) : Nat := rotr 7 x ^^^ rotr 18 x ^^^ (x >>> 3)

/-- The SHA-256 small sigma-1 function. -/
def smallSigma1 (x : Nat) : Nat := rotr 17 x ^^^ rotr 19 x ^^^ (x >>> 10)

/-- The eight SHA-256 working registers. -/
structure Regs where
  a : Nat
  b : Nat
  c : Nat
  d : Nat
  e : Nat
  f : Nat
  g : Nat
  h : Nat
  deriving DecidableEq

/-- The SHA-256 initial hash value. -/
def shaInit : Regs :=
  ⟨1779033703, 3144134277, 1013904242, 2773480762,
   1359893119, 2600822924, 528734635, 1541459225⟩

/-- The sixty-four SHA-256 round constants. -/
def shaK : List Nat :=
  [1116352408, 1899447441, 3049323471, 3921009573, 961987163,
   1508970993, 2453635748, 2870763221, 3624381080, 310598401,
   607225278, 1426881987, 1925078388, 2162078206, 2614888103,
   3248222580, 3835390401, 4022224774, 264347078, 604807628,
   770255983, 1249150122, 1555081692, 1996064986, 2554220882,
   2821834349, 2952996808, 3210313671, 3336571891, 3584528711,
   113926993, 338241895, 666307205, 773529912, 1294757372,
   1396182291, 1695183700, 1986661051, 2177026350, 2456956037,
   2730485921, 2820302411, 3259730800, 3345764771, 3516065817,
   3600352804, 4094571909, 275423344, 430227734, 506948616,
   659060556, 883997877, 958139571, 1322822218, 1537002063,
   1747873779, 1955562222, 2024104815, 2227730452, 2361852424,
   2428436474, 2756734187, 3204031479, 3329325298]

/-- The big-endian bytes of `n`, on exactly `len` bytes. -/
def natToBytesBE (n : Nat) : Nat → List Nat
  | 0 => []
  | len + 1 => natToBytesBE (n / 256) len ++ [n % 256]

/-- Pack bytes into 32-bit words, big-endian, four at a time. -/
def toWords : List Nat → List Nat
  | b0 :: b1 :: b2 :: b3 :: rest =>
      (((b0 % 256) <<< 24) + ((b1 % 256) <<< 16) + ((b2 % 256) <<< 8) + (b3 % 256))
        :: toWords rest
  | _ => []

/-- SHA-256 padding: append the `0x80` byte, zeros up to 56 mod 64, and the
bit length on eight big-endian bytes. -/
def padMessage (msg : List Nat) : List Nat :=
  msg ++ [0x80] ++ List.replicate ((119 - msg.length % 64) % 64) 0
      ++ natToBytesBE (msg.length * 8) 8

/-- Extend a message schedule by `k` further words, each combining the words
2, 7, 15 and 16 places back, mod `2 ^ 32`. -/
def extendSchedule : List Nat → Nat → List Nat
  | w, 0 => w
  | w, k + 1 =>
    let n := w.length
    let wt := (smallSigma1 (w.getD (n - 2) 0) + w.getD (n - 7) 0
                + smallSigma0 (w.getD (n - 15) 0) + w.getD (n - 16) 0) % M32
    extendSchedule (w ++ [wt]) k

/-- One SHA-256 compression round for round constant `k` and schedule word
`w`. -/
def compressRound (k w : Nat) (r : Regs) : Regs :=
  let t1 := (r.h + bigSigma1 r.e + shaCh r.e r.f r.g + k + w) % M32
  let t2 := (bigSigma0 r.a + shaMaj r.a r.b r.c) % M32
  ⟨(t1 + t2) % M32, r.a, r.b, r.c, (r.d + t1) % M32, r.e, r.f, r.g⟩

/-- Compress one 64-byte chunk into the running hash: sixty-four rounds over
the extended schedule, then the feed-forward addition mod `2 ^ 32`. -/
def compressBlock (hs : Regs) (chunk : List Nat) : Regs :=
  let ws := extendSchedule (toWords chunk) 48
  let r := (shaK.zip ws).foldl (fun acc kw => compressRound kw.1 kw.2 acc) hs
  ⟨(hs.a + r.a) % M32, (hs.b + r.b) % M32, (hs.c + r.c) % M32, (hs.d + r.d) % M32,
   (hs.e + r.e) % M32, (hs.f + r.f) % M32, (hs.g + r.g) % M32, (hs.h + r.h) % M32⟩

/-- Split a byte list into 64-byte chunks. The first argument is fuel, always
called with at least the list's length; each step consumes a nonempty list. -/
def chunks64 : Nat → List Nat → List (List Nat)
  | 0, _ => []
  | _ + 1, [] => []
  | fuel + 1, x :: rest =>
      (x :: rest).take 64 :: chunks64 fuel ((x :: rest).drop 64)

/-- The SHA-256 register state after absorbing the whole padded message. -/
def sha256Regs (msg : List Nat) : Regs :=
  let padded := padMessage msg
  (chunks64 padded.length padded).foldl compressBlock shaInit

/-- A register state packed into one natural, 32 bits per register, `a` most
significant. Each register is reduced mod `2 ^ 32`, the identity on the
already-reduced registers SHA-256 produces. -/
def regsToNat (r : Regs) : Nat :=
  [r.a, r.b, r.c, r.d, r.e, r.f, r.g, r.h].foldl
    (fun acc w => acc * M32 + w % M32) 0

/-- The SHA-256 digest of a byte list, as a natural below `2 ^ 256`. -/
def sha256 (msg : List Nat) : Nat := regsToNat (sha256Regs msg)

/-- The SHA-256 digest as its 32 big-endian bytes. -/
def sha256Bytes (msg : List Nat) : List Nat := natToBytesBE (sha256 msg) 32

/-- HMAC-SHA256 (RFC 2104): the key is hashed when longer than the 64-byte
block, zero-padded to the block size, and combined with the inner and outer
pads. -/
def hmacSha256 (secret msg : List Nat) : Nat :=
  let k0 := if 64 < secret.length then sha256Bytes secret else secret
  let kpad := k0 ++ List.replicate (64 - k0.length) 0
  let ipadKey := kpad.map (fun b => (b % 256) ^^^ 0x36)
  let opadKey := kpad.map (fun b => (b % 256) ^^^ 0x5c)
  sha256 (opadKey ++ sha256Bytes (ipadKey ++ msg))

/-- One lowercase hex digit. -/
def hexChar (n : Nat) : Char :=
  if n < 10 then Char.ofNat (48 + n) else Char.ofNat (87 + n)

/-- The lowercase hex digits of `n` on exactly `k` digits, most significant
first. -/
def toHexFixed : Nat → Nat → List Char
  | 0, _ => []
  | k + 1, n => toHexFixed k (n / 16) ++ [hexChar (n % 16)]

/-- The bytes of a string, one natural per character code. -/
def strBytes (s : String) : List Nat := s.data.map (fun c => c.toNat)

/-- Modelled from the spec: `sign(secret, canonicalPayloadBytes)` is the
lowercase hex HMAC-SHA256 digest of the exact payload bytes, keyed by the
endpoint secret — the value carried in the `X-Webhook-Signature` header. -/
def sign (secret payload : List Nat) : String :=
  ⟨toHexFixed 64 (hmacSha256 secret payload)⟩

/-- Modelled from the spec: `verify(secret, payloadBytes, suppliedDigest)`
recomputes the digest over the payload bytes and compares it with the
supplied one. The spec's constant-time comparison has the semantics of
equality; timing is outside the model. -/
def verify (secret payload : List Nat) (digest : String) : Bool :=
  sign secret payload == digest

/-! ## The assembled Express application (app.ts, src/PULL_REQUEST.md) -/

/-- HTTP methods used by the application's route registrations. -/
inductive HttpMethod
  | GET
  | POST
  | PUT
  | DELETE
  deriving DecidableEq

/-- The route table of the Express application assembled in `app.ts`, in
registration order: every `app.get`/`app.post` call with its path. Middleware
mounts (`app.use` for logging, rate limiting, security, body parsing, the
swagger UI) register no method-specific route and are not rows here. -/
def appRoutes : List (HttpMethod × String) :=
  [ (.GET, "/health"),
    (.POST, "/api/auth/login"),
    (.POST, "/api/auth/register"),
    (.POST, "/api/payment/process"),
    (.GET, "/api/payment/history"),
    (.POST, "/api/payment/validate"),
    (.GET, "/api/test"),
    (.POST, "/api/documents/upload"),
    (.GET, "/api/analytics/dashboard"),
    (.POST, "/api/analytics/reports"),
    (.GET, "/api/analytics/export") ]

/-! ## Shared lemmas and fixtures -/

/-- The SHA-256 digest of a byte list as a lowercase 64-digit hex string. -/
def sha256Hex (msg : List Nat) : String := ⟨toHexFixed 64 (sha256 msg)⟩

/-- Packing 32-bit words into a natural stays below the corresponding power of
two: each step multiplies by `2 ^ 32` and adds a reduced word. -/
theorem foldlWord_lt (ws : List Nat) (acc k : Nat) (hacc : acc < 2 ^ k) :
    ws.foldl (fun a w => a * M32 + w % M32) acc < 2 ^ (k + 32 * ws.length) := by
  induction ws generalizing acc k with
  | nil => simpa using hacc
  | cons w t ih =>
    have h1 : acc * M32 + w % M32 < 2 ^ (k + 32) := by
      have hw : w % M32 < M32 := Nat.mod_lt _ (by norm_num [M32])
      have h2k : acc + 1 ≤ 2 ^ k := hacc
      calc acc * M32 + w % M32 < acc * M32 + M32 := by omega
        _ = (acc + 1) * M32 := by ring
        _ ≤ 2 ^ k * M32 := Nat.mul_le_mul_right _ h2k
        _ = 2 ^ (k + 32) := by rw [pow_add]; norm_num [M32]
    rw [List.foldl_cons, List.length_cons]
    have h2 := ih (acc * M32 + w % M32) (k + 32) h1
    have hexp : k + 32 + 32 * t.length = k + 32 * (t.length + 1) := by ring
    rw [hexp] at h2
    exact h2

/-- A packed register state is a 256-bit value. -/
theorem regsToNat_lt (r : Regs) : regsToNat r < 2 ^ 256 := by
  have h := foldlWord_lt [r.a, r.b, r.c, r.d, r.e, r.f, r.g, r.h] 0 0 (by norm_num)
  simp only [List.length_cons, List.length_nil] at h
  exact lt_of_lt_of_le h (by norm_num)

/-- Every SHA-256 digest is below `2 ^ 256`. -/
theorem sha256_lt (msg : List Nat) : sha256 msg < 2 ^ 256 := regsToNat_lt _

/-- Every HMAC-SHA256 digest is below `2 ^ 256`. -/
theorem hmac_lt (secret msg : List Nat) : hmacSha256 secret msg < 2 ^ 256 := by
  unfold hmacSha256
  exact sha256_lt _

set_option maxRecDepth 400000 in
/-- The embedded SHA-256 reproduces the FIPS 180-4 known answer for the
message `abc`. -/
theorem sha256_known_answer_abc :
    sha256Hex (strBytes "abc") =
      "ba7816bf8f01cfea414140de5dae2223b00361a396177a9cb410ff61f20015ad" := by
  decide

set_option maxRecDepth 400000 in
/-- The embedded HMAC-SHA256 reproduces the standard known answer for key
`key` and the quick-brown-fox message. -/
theorem hmac_known_answer_fox :
    sign (strBytes "key") (strBytes "The quick brown fox jumps over the lazy dog") =
      "f7bc83f430538424b13298e6aa6fb143ef4d59a14946175997479dbc2d1a3cd8" := by
  decide

/-- A concrete registered webhook used to instantiate theorems. -/
def sampleWebhook : Webhook :=
  { id := 1
    userId := 10
    url := "https://example.com/hook"
    events := ["payment.success"]
    secret := "whsec_1"
    isActive := true
    retryPolicy := .EXPONENTIAL
    maxRetries := 3
    retryDelaySeconds := 60
    timeoutSeconds := 30
    headers := []
    createdAt := 0 }

/-- A concrete pending delivery unit used to instantiate theorems. -/
def sampleEvent : WebhookEvent :=
  { id := 100
    webhookId := 1
    eventType := "payment.success"
    payload := [123, 125]
    status := .PENDING
    attempts := 0
    lastAttempt := none
    nextRetry := none
    createdAt := 0 }

/-- A concrete store holding the sample webhook, one of its events, an
attempt of that event, and a log row. -/
def sampleDb : Db :=
  { webhooks := [sampleWebhook]
    events := [sampleEvent]
    attempts := [⟨500, 100, some 503, some 12, some "oops", none, 1⟩]
    logs := [⟨900, 1, .CREATED, .SUCCESS, 0⟩] }

/-- The webhook produced by registering `https://example.com/h2` for
`bill.paid` against the sample store with no policy options. -/
def sampleRegistered : Webhook :=
  { id := 2
    userId := 10
    url := "https://example.com/h2"
    events := ["bill.paid"]
    secret := "whsec_2"
    isActive := true
    retryPolicy := .EXPONENTIAL
    maxRetries := 5
    retryDelaySeconds := 60
    timeoutSeconds := 30
    headers := []
    createdAt := 5 }

/-! ## Claims -/

/-- C1: for every positive attempt number `n` and base delay `b`, the retry
policy calculator gives `b` under FIXED, `b * n` under LINEAR and
`b * 2 ^ (n - 1)` under EXPONENTIAL; in particular the third attempt at base
delay 60 is delayed 240, 180 and 60 seconds respectively. -/
theorem C1_retry_policy_formulas (n b : Nat) (hpos : 0 < n) :
    calculateRetryDelay n .FIXED b = b ∧
    calculateRetryDelay n .LINEAR b = b * n ∧
    calculateRetryDelay n .EXPONENTIAL b = b * 2 ^ (n - 1) ∧
    calculateRetryDelay 3 .EXPONENTIAL 60 = 240 ∧
    calculateRetryDelay 3 .LINEAR 60 = 180 ∧
    calculateRetryDelay 3 .FIXED 60 = 60 :=
  ⟨rfl, rfl, rfl, by decide, by decide, by decide⟩

/-- C1 witness: the theorem instantiated at attempt 3 with base delay 60. -/
theorem C1_retry_policy_formulas_witness :
    0 < 3 ∧ calculateRetryDelay 3 .EXPONENTIAL 60 = 60 * 2 ^ (3 - 1) :=
  ⟨by decide, (C1_retry_policy_formulas 3 60 (by decide)).2.2.1⟩

/-- C10: the assembled Express application registers no route under
`/api/webhooks`; its route table consists only of the health check, auth,
payment, document-upload, analytics and test routes, so no webhook operation
is reachable through the application's HTTP interface. -/
theorem C10_no_webhook_routes :
    (∀ r ∈ appRoutes, strStartsWith r.2 "/api/webhooks" = false) ∧
    (∀ r ∈ appRoutes,
      r.2 = "/health" ∨ strStartsWith r.2 "/api/auth/" = true ∨
      strStartsWith r.2 "/api/payment/" = true ∨ r.2 = "/api/test" ∨
      strStartsWith r.2 "/api/documents/" = true ∨
      strStartsWith r.2 "/api/analytics/" = true) := by
  decide

/-- C5: registering with a URL that does not use the https scheme returns a
ValidationError and leaves the store unchanged — no endpoint is persisted by
the failed call. -/
theorem C5_non_https_register_rejected (db : Db) (userId : Nat)
    (input : RegisterInput) (freshId : Nat) (freshSecret : String) (now : Nat)
    (hurl : strStartsWith input.url "https://" = false) :
    (∃ msg, (registerWebhook db userId input freshId freshSecret now).1 =
        .error (.ValidationError msg)) ∧
    (registerWebhook db userId input freshId freshSecret now).2 = db := by
  unfold registerWebhook
  rw [hurl]
  exact ⟨⟨"Webhook URL must use HTTPS", by simp⟩, by simp⟩

/-- C5 witness: registering `http://example.com/hook` persists nothing — the
store is exactly what it was. -/
theorem C5_non_https_register_rejected_witness :
    (registerWebhook sampleDb 10
        { url := "http://example.com/hook", events := ["payment.success"] }
        2 "whsec_2" 5).2 = sampleDb :=
  (C5_non_https_register_rejected sampleDb 10
    { url := "http://example.com/hook", events := ["payment.success"] } 2 "whsec_2" 5
    (by decide)).2

/-- C6: the signing secret appears in the register response exactly once, at
creation — the created endpoint carries it in plaintext — while every
subsequent read (list, get, update responses) returns the secret redacted. -/
theorem C6_secret_returned_once
    (db : Db) (userId : Nat) (input : RegisterInput) (freshId : Nat)
    (freshSecret : String) (now : Nat) (wh : Webhook)
    (hreg : (registerWebhook db userId input freshId freshSecret now).1 = .ok wh) :
    wh.secret = freshSecret ∧
    (∀ db2 uid, ∀ v ∈ listWebhooks db2 uid, v.secret = redactedSecret) ∧
    (∀ db2 wid uid w, getWebhook db2 wid uid = .ok w → w.secret = redactedSecret) ∧
    (∀ db2 wid uid p now2 w, (updateWebhook db2 wid uid p now2).1 = .ok w →
        w.secret = redactedSecret) := by
  refine ⟨?_, ?_, ?_, ?_⟩
  · unfold registerWebhook at hreg
    split at hreg
    · simp at hreg
    · split at hreg
      · simp at hreg
      · simp only [Except.ok.injEq] at hreg
        rw [← hreg]
  · intro db2 uid v hv
    unfold listWebhooks at hv
    simp only [List.mem_map] at hv
    obtain ⟨u, hu, rfl⟩ := hv
    rfl
  · intro db2 wid uid w hw
    unfold getWebhook at hw
    split at hw
    · simp at hw
    · split at hw
      · simp at hw
      · simp only [Except.ok.injEq] at hw
        rw [← hw]
        rfl
  · intro db2 wid uid p now2 w hw
    unfold updateWebhook at hw
    split at hw
    · simp at hw
    · split at hw
      · simp at hw
      · split at hw
        · simp at hw
        · simp only [Except.ok.injEq] at hw
          rw [← hw]
          rfl

/-- C6 witness: a concrete registration returns the generated secret in
plaintext, and the concrete list read of the sample store returns its one
webhook with the secret redacted. -/
theorem C6_secret_returned_once_witness :
    sampleRegistered.secret = "whsec_2" ∧
    (redactSecret sampleWebhook).secret = redactedSecret := by
  have h := C6_secret_returned_once sampleDb 10
    { url := "https://example.com/h2", events := ["bill.paid"] } 2 "whsec_2" 5
    sampleRegistered rfl
  exact ⟨h.1, h.2.1 sampleDb 10 (redactSecret sampleWebhook) (by decide)⟩

/-- C7: registering without explicit policy options creates the endpoint with
the documented defaults — maxRetries 5, base retry delay 60 seconds,
per-attempt timeout 30 seconds, and an empty custom-headers mapping. -/
theorem C7_register_defaults (db : Db) (userId : Nat) (url : String)
    (evs : List String) (freshId : Nat) (freshSecret : String) (now : Nat)
    (wh : Webhook)
    (hreg : (registerWebhook db userId { url := url, events := evs }
        freshId freshSecret now).1 = .ok wh) :
    wh.maxRetries = 5 ∧ wh.retryDelaySeconds = 60 ∧ wh.timeoutSeconds = 30 ∧
    wh.headers = [] := by
  unfold registerWebhook at hreg
  split at hreg
  · simp at hreg
  · split at hreg
    · simp at hreg
    · simp only [Except.ok.injEq] at hreg
      rw [← hreg]
      exact ⟨rfl, rfl, rfl, rfl⟩

/-- C7 witness: a concrete registration without policy options carries the
defaults. -/
theorem C7_register_defaults_witness :
    sampleRegistered.maxRetries = 5 ∧ sampleRegistered.retryDelaySeconds = 60 ∧
    sampleRegistered.timeoutSeconds = 30 ∧ sampleRegistered.headers = [] :=
  C7_register_defaults sampleDb 10 "https://example.com/h2" ["bill.paid"] 2 "whsec_2" 5
    sampleRegistered rfl

/-- C8: deleting an existing endpoint owned by the caller succeeds and
cascades: afterwards no webhook row with that id, no event of the webhook, no
log of the webhook, and no attempt belonging to one of the webhook's events
remains in the store. -/
theorem C8_delete_cascades (db : Db) (wid uid : Nat) (w : Webhook)
    (hfind : db.webhooks.find? (fun x => x.id == wid) = some w)
    (hown : w.userId = uid) :
    (deleteWebhook db wid uid).1 = .ok () ∧
    (∀ x ∈ (deleteWebhook db wid uid).2.webhooks, x.id ≠ wid) ∧
    (∀ e ∈ (deleteWebhook db wid uid).2.events, e.webhookId ≠ wid) ∧
    (∀ l ∈ (deleteWebhook db wid uid).2.logs, l.webhookId ≠ wid) ∧
    (∀ a ∈ (deleteWebhook db wid uid).2.attempts, ∀ e ∈ db.events,
        e.webhookId = wid → a.eventId ≠ e.id) := by
  unfold deleteWebhook
  rw [hfind]
  simp only [hown, ne_eq, not_true_eq_false, if_false, ite_false]
  refine ⟨trivial, ?_, ?_, ?_, ?_⟩
  · intro x hx
    exact of_decide_eq_true (List.mem_filter.mp hx).2
  · intro e he
    exact of_decide_eq_true (List.mem_filter.mp he).2
  · intro l hl
    exact of_decide_eq_true (List.mem_filter.mp hl).2
  · intro a ha e he hewid
    have hall := (List.mem_filter.mp ha).2
    rw [List.all_eq_true] at hall
    have hed : e ∈ db.events.filter (fun e => e.webhookId == wid) := by
      rw [List.mem_filter]
      exact ⟨he, by simp [hewid]⟩
    have := of_decide_eq_true (hall e hed)
    exact fun hc => this hc.symm

/-- C8 witness: deleting the sample webhook from the sample store succeeds. -/
theorem C8_delete_cascades_witness :
    (deleteWebhook sampleDb 1 10).1 = .ok () :=
  (C8_delete_cascades sampleDb 1 10 sampleWebhook (by decide) (by decide)).1

/-- The automatic delivery loop does nothing to an event that is no longer
PENDING: a terminal status stops it before any further attempt. -/
theorem deliveryRun_terminal (wh : Webhook) (ev : WebhookEvent)
    (houts : ev.status ≠ EventStatus.PENDING) (outs : List DeliveryOutcome)
    (now attemptId : Nat) :
    deliveryRun wh ev outs now attemptId = ⟨ev, [], []⟩ := by
  cases outs with
  | nil => rfl
  | cons o rest =>
    unfold deliveryRun
    rw [if_neg houts]

/-- C3: a PENDING event whose first delivery attempt receives a 2xx response
is DELIVERED after exactly one recorded attempt and no scheduled retry;
DELIVERED is terminal — the loop performs no further attempts — and an
outcome counts as a success exactly when it is an HTTP response with status
in the 200 to 299 range. -/
theorem C3_success_first_attempt (wh : Webhook) (ev : WebhookEvent)
    (code lat : Nat) (body : String) (now attemptId : Nat)
    (hst : ev.status = EventStatus.PENDING)
    (h200 : 200 ≤ code) (h299 : code ≤ 299) :
    (deliveryRun wh ev [.response code lat body] now attemptId).event.status =
        EventStatus.DELIVERED ∧
    (deliveryRun wh ev [.response code lat body] now attemptId).attempts.length = 1 ∧
    (deliveryRun wh ev [.response code lat body] now attemptId).delays = [] ∧
    (∀ outs now2 aid2,
      deliveryRun wh (deliveryRun wh ev [.response code lat body] now attemptId).event
          outs now2 aid2 =
        ⟨(deliveryRun wh ev [.response code lat body] now attemptId).event, [], []⟩) ∧
    (∀ o, outcomeSuccess o = true ↔
      ∃ c l b, o = DeliveryOutcome.response c l b ∧ 200 ≤ c ∧ c ≤ 299) := by
  have hsucc : outcomeSuccess (DeliveryOutcome.response code lat body) = true := by
    simp [outcomeSuccess, isSuccessStatus]
    exact ⟨h200, h299⟩
  have hrun : deliveryRun wh ev [.response code lat body] now attemptId =
      ⟨{ ev with status := .DELIVERED, lastAttempt := some now, nextRetry := none },
       [recordAttempt attemptId ev now (.response code lat body)], []⟩ := by
    unfold deliveryRun
    rw [if_pos hst]
    unfold attemptWebhookDelivery
    rw [if_pos hsucc]
    rfl
  rw [hrun]
  refine ⟨rfl, rfl, rfl, ?_, ?_⟩
  · intro outs now2 aid2
    exact deliveryRun_terminal wh _ (by simp) outs now2 aid2
  · intro o
    cases o with
    | response c l b =>
      simp [outcomeSuccess, isSuccessStatus, DeliveryOutcome.response.injEq]
    | networkError m => simp [outcomeSuccess]
    | timedOut => simp [outcomeSuccess]

/-- C3 witness: the sample pending event delivered with a 200 response. -/
theorem C3_success_first_attempt_witness :
    (deliveryRun sampleWebhook sampleEvent [.response 200 5 "ok"] 0 1).event.status =
        EventStatus.DELIVERED ∧
    (deliveryRun sampleWebhook sampleEvent [.response 200 5 "ok"] 0 1).attempts.length = 1 := by
  have h := C3_success_first_attempt sampleWebhook sampleEvent 200 5 "ok" 0 1
    rfl (by decide) (by decide)
  exact ⟨h.1, h.2.1⟩

/-- C4: an event whose endpoint allows three retries and whose every attempt
returns HTTP 500 accumulates exactly three recorded attempts and ends in the
terminal FAILED state, the delay scheduled before each retry being the
configured policy's delay at the attempts counter. -/
theorem C4_exhaustion_three_failures (wh : Webhook) (ev : WebhookEvent)
    (l1 l2 l3 : Nat) (b1 b2 b3 : String) (now attemptId : Nat)
    (hmax : wh.maxRetries = 3) (hst : ev.status = EventStatus.PENDING)
    (hatt : ev.attempts = 0) :
    (deliveryRun wh ev
        [.response 500 l1 b1, .response 500 l2 b2, .response 500 l3 b3]
        now attemptId).event.status = EventStatus.FAILED ∧
    (deliveryRun wh ev
        [.response 500 l1 b1, .response 500 l2 b2, .response 500 l3 b3]
        now attemptId).attempts.length = 3 ∧
    (deliveryRun wh ev
        [.response 500 l1 b1, .response 500 l2 b2, .response 500 l3 b3]
        now attemptId).delays =
      [calculateRetryDelay 1 wh.retryPolicy wh.retryDelaySeconds,
       calculateRetryDelay 2 wh.retryPolicy wh.retryDelaySeconds] ∧
    (∀ outs now2 aid2,
      deliveryRun wh (deliveryRun wh ev
          [.response 500 l1 b1, .response 500 l2 b2, .response 500 l3 b3]
          now attemptId).event outs now2 aid2 =
        ⟨(deliveryRun wh ev
            [.response 500 l1 b1, .response 500 l2 b2, .response 500 l3 b3]
            now attemptId).event, [], []⟩) := by
  have hfail : outcomeSuccess (DeliveryOutcome.response 500 l1 b1) = false := by
    simp [outcomeSuccess, isSuccessStatus]
  simp only [deliveryRun, attemptWebhookDelivery, outcomeSuccess, isSuccessStatus,
    hst, hatt, hmax, if_pos, if_neg]
  norm_num
  intro outs now2 aid2
  exact deliveryRun_terminal wh _ (by simp) outs now2 aid2

/-- C4 witness: the sample webhook (three retries allowed) with three 500
responses. -/
theorem C4_exhaustion_three_failures_witness :
    (deliveryRun sampleWebhook sampleEvent
        [.response 500 1 "e1", .response 500 2 "e2", .response 500 3 "e3"]
        0 1).event.status = EventStatus.FAILED ∧
    (deliveryRun sampleWebhook sampleEvent
        [.response 500 1 "e1", .response 500 2 "e2", .response 500 3 "e3"]
        0 1).attempts.length = 3 := by
  have h := C4_exhaustion_three_failures sampleWebhook sampleEvent 1 2 3 "e1" "e2" "e3"
    0 1 rfl rfl rfl
  exact ⟨h.1, h.2.1⟩

/-- C9: the manual retry operation, run against an event in any state,
appends exactly one new attempt row, leaves the attempts counter un-reset
(never lowered; bumped only by the failure rule of the automatic loop),
updates the status according to the outcome, and changes no identifying field
of the event. -/
theorem C9_manual_retry_frame (wh : Webhook) (ev : WebhookEvent)
    (o : DeliveryOutcome) (now attemptId : Nat) (prior : List WebhookAttempt) :
    (retryWebhookEvent wh ev o now attemptId prior).2 =
      prior ++ [recordAttempt attemptId ev now o] ∧
    ev.attempts ≤ (retryWebhookEvent wh ev o now attemptId prior).1.attempts ∧
    (outcomeSuccess o = true →
      (retryWebhookEvent wh ev o now attemptId prior).1.status = EventStatus.DELIVERED ∧
      (retryWebhookEvent wh ev o now attemptId prior).1.attempts = ev.attempts) ∧
    (outcomeSuccess o = false →
      (retryWebhookEvent wh ev o now attemptId prior).1.attempts = ev.attempts + 1 ∧
      (retryWebhookEvent wh ev o now attemptId prior).1.status =
        (if ev.attempts + 1 < wh.maxRetries then EventStatus.PENDING
         else EventStatus.FAILED)) ∧
    (retryWebhookEvent wh ev o now attemptId prior).1.id = ev.id ∧
    (retryWebhookEvent wh ev o now attemptId prior).1.webhookId = ev.webhookId ∧
    (retryWebhookEvent wh ev o now attemptId prior).1.eventType = ev.eventType ∧
    (retryWebhookEvent wh ev o now attemptId prior).1.payload = ev.payload ∧
    (retryWebhookEvent wh ev o now attemptId prior).1.createdAt = ev.createdAt := by
  unfold retryWebhookEvent attemptWebhookDelivery
  cases hsucc : outcomeSuccess o with
  | true => simp [hsucc]
  | false =>
    simp only [hsucc, Bool.false_eq_true, if_false, ite_false]
    split_ifs with hlt <;>
      simp_all [Nat.le_succ_of_le, Nat.le_refl, Nat.le_succ]

/-- C9 witness: a manual retry of a FAILED event that fails again appends one
attempt and keeps the counter un-reset. -/
theorem C9_manual_retry_frame_witness :
    (retryWebhookEvent sampleWebhook
        { sampleEvent with status := .FAILED, attempts := 3 }
        (.response 500 9 "oops") 50 7 []).2 =
      [] ++ [recordAttempt 7 { sampleEvent with status := .FAILED, attempts := 3 } 50
              (.response 500 9 "oops")] ∧
    ({ sampleEvent with status := EventStatus.FAILED, attempts := 3 } : WebhookEvent).attempts ≤
      (retryWebhookEvent sampleWebhook
        { sampleEvent with status := .FAILED, attempts := 3 }
        (.response 500 9 "oops") 50 7 []).1.attempts := by
  have h := C9_manual_retry_frame sampleWebhook
    { sampleEvent with status := .FAILED, attempts := 3 }
    (.response 500 9 "oops") 50 7 []
  exact ⟨h.1, h.2.1⟩

/-- C2 counterexample: the claim that `verify` rejects EVERY mutated payload
(equivalently, every wrong secret) cannot hold of HMAC-SHA256 — digests live
below `2 ^ 256`, so infinitely many one-byte payloads force two distinct ones
with equal digests by pigeonhole, and `verify` accepts the signature of one
for the other. The claim as stated, over all secrets and payload byte
sequences, is therefore false. -/
theorem C2_ideal_rejection_counterexample :
    ¬ ((∀ s p, verify s p (sign s p) = true) ∧
       (∀ s s2 p, s ≠ s2 → verify s2 p (sign s p) = false) ∧
       (∀ s p p2, p ≠ p2 → verify s p2 (sign s p) = false)) := by
  rintro ⟨hrt, -, hmut⟩
  obtain ⟨a, b, hab, hfeq⟩ :=
    Finite.exists_ne_map_eq_of_infinite
      (fun n : Nat => (⟨hmacSha256 [] [n], hmac_lt [] [n]⟩ : Fin (2 ^ 256)))
  have hh := congrArg Fin.val hfeq
  simp only [Fin.val_mk] at hh
  have hsg : sign [] [a] = sign [] [b] := by unfold sign; rw [hh]
  have hf := hmut [] [a] [b] (by simpa using hab)
  rw [hsg] at hf
  have ht := hrt [] [b]
  exact absurd (ht.symm.trans hf) (by decide)

set_option maxRecDepth 400000 in
/-- C2 (amended): for every secret and payload byte sequence,
`verify(secret, payload, sign(secret, payload))` is true; `verify` accepts a
digest exactly when it equals the recomputed HMAC-SHA256 hex digest of the
exact payload bytes given, so a different secret or a mutated payload is
rejected precisely when its digest differs — which the concrete wrong-secret
and mutated-payload checks here exhibit, and which cannot hold for all
distinct pairs at once since 256-bit digests collide by pigeonhole. -/
theorem C2_sign_verify_amended :
    (∀ s p, verify s p (sign s p) = true) ∧
    (∀ s p d, verify s p d = true ↔ sign s p = d) ∧
    verify (strBytes "kez") (strBytes "dog")
      (sign (strBytes "key") (strBytes "dog")) = false ∧
    verify (strBytes "key") (strBytes "dogs")
      (sign (strBytes "key") (strBytes "dog")) = false :=
  ⟨fun s p => by simp [verify], fun s p d => by simp [verify],
   by decide, by decide⟩

end Nepa
